import Mathlib

/-!
Verification of the results-visualization library of the thomas2021-wec
repository (single source file `image_gen/image_generator.py`).

Each Python fragment relevant to a claim is shallowly embedded below:
pure numeric code becomes functions over `ℚ` or `ℝ`, fallible code returns
`Except PyErr _`, `None`/NaN placeholders written into numpy float arrays
become `Option` values, and regular-expression scans become explicit
character-list scanners.  Definitions are translated from the source;
definitions that instead follow a claim's own words (for refinement
comparisons) carry a `Spec` suffix and say so in their doc comment.
-/

/-- Python runtime failures that the embedded fragments can signal. -/
inductive PyErr where
  /-- an out-of-bounds sequence subscript (Python `IndexError`). -/
  | indexError : PyErr
  /-- reading a local variable that was never assigned
      (Python `UnboundLocalError`), carrying the variable name. -/
  | unboundLocal : String → PyErr
  /-- an explicitly raised `EnvironmentError` with its message. -/
  | envError : String → PyErr
  deriving DecidableEq, Repr

/-! ### `plot_windrose` (source lines 138–190) — claim C9

The function body, in source order: the `plot_radius` default, the in-place
direction transform, `width = 2π/N`, the major-tick circle loop, and then —
unconditionally, before `ax.bar` is reached — the line

    minor_tick_distance = (ticks[1] - ticks[0]) / (minor_ticks + 1.)

`ticks[1]` is a plain subscript, so a one-element `ticks` list raises
`IndexError` there.  The embedding returns the data `ax.bar` receives
(number of bars and their common angular width numerator) on success; the
`values`, `minor_ticks` and `bottom` arguments are carried to mirror the
signature even where the failing expression ignores them. -/

/-- What `plot_windrose` has computed once control reaches the `ax.bar`
call: the number of bars (`N = direction.size`) and the minor-tick spacing
computed just before the bars are drawn. -/
structure WindroseBars where
  nbars : ℕ
  minorTickDistance : ℚ
  deriving DecidableEq, Repr

/-- Embedding of `plot_windrose` from the start of the body up to and
including the `ax.bar(...)` call.  `direction` is the list of direction
angles (degrees), `values` the bar values, `ticks` the major radial ticks,
`minor_ticks` the minor-tick count (source default 0).  The
`minor_tick_distance` assignment subscripts `ticks[1]` and `ticks[0]`
before any bar is drawn; everything before it (radius default, direction
rotation, width, tick-circle loop) is total for any argument values. -/
def plot_windrose_run (direction values ticks : List ℚ)
    (minor_ticks : ℕ) : Except PyErr WindroseBars :=
  -- plot_radius = max(ticks); direction rotation; width = 2π/N; the
  -- major-tick circle loop: all total, no subscript beyond ticks[i] for
  -- i < len(ticks).  Then:
  match ticks with
  | t0 :: t1 :: _ =>
      let minor_tick_distance := (t1 - t0) / (minor_ticks + 1)
      -- (minor-tick circle loop, colors, then ax.bar(direction, values, ...))
      let _ := values
      Except.ok ⟨direction.length, minor_tick_distance⟩
  | _ => Except.error PyErr.indexError

/-! ### `plot_alpso_tests` (source lines 5997–6038) — claim C10

The loop body runs for the four case studies `(16,20), (38,12), (38,36),
(60,72)`; inside `if save_figs:` the parameter `filename` is *rebound*:

    filename = "./images/alpso_test_%iturbs_%idirs.pdf" % (nturbs[i], ndirs[i])
    plt.savefig(filename, transparent=True)

so the incoming argument is dead from the first save on and never read
before that rebinding.  The embedding threads the `filename` variable
through the loop exactly as the source does and collects the paths passed
to `plt.savefig`. -/

/-- The four `(nturbs, ndirs)` case studies iterated by `plot_alpso_tests`
(from the arrays `nturbs = [16, 38, 38, 60]`, `ndirs = [20, 12, 36, 72]`). -/
def alpsoCases : List (ℕ × ℕ) := [(16, 20), (38, 12), (38, 36), (60, 72)]

/-- The hard-coded output path `"./images/alpso_test_%iturbs_%idirs.pdf"`. -/
def alpsoTestPath (nturbs ndirs : ℕ) : String :=
  "./images/alpso_test_" ++ toString nturbs ++ "turbs_"
    ++ toString ndirs ++ "dirs.pdf"

/-- Embedding of `plot_alpso_tests`' output behaviour: folds over the four
case studies threading the local `filename` variable (initially the
argument) and accumulating every path handed to `plt.savefig`.  Returns
the final value of `filename` and the list of written paths. -/
def plot_alpso_tests_writes (filename : String) (save_figs : Bool) :
    String × List String :=
  alpsoCases.foldl
    (fun st c =>
      if save_figs then
        let fn := alpsoTestPath c.1 c.2
        (fn, st.2 ++ [fn])
      else st)
    (filename, [])

/-! ### `plot_max_wec_results` unsupported-count guard (lines 2130–2183) — claim C8

For `nturbs == 38` the branch assigns the sweep configuration locals
(`rdir`, `wadirp`, `wddirp`, `whdirp`, `bfilename`, the value ranges and
the five aggregate arrays).  The `else` branch is the single statement

    ValueError("please include results for %i turbines ..." % nturbs)

an *expression statement*: the error object is constructed and immediately
discarded; nothing is raised and control falls through.  The next
statement, `base_data = np.loadtxt(rdir + wadirp + ...)`, then reads the
never-assigned local `rdir` and fails with `UnboundLocalError`. -/

/-- The sweep-configuration locals assigned by the `nturbs == 38` branch of
`plot_max_wec_results`; each is `none` when the branch was not taken. -/
structure MaxWecLocals where
  rdir : Option String
  wadirp : Option String
  bfilename : Option String
  deriving DecidableEq, Repr

/-- Embedding of the guard `if nturbs == 38: ... else: ValueError(...)`.
Both branches complete normally (the `else` branch merely evaluates the
`ValueError(...)` expression and discards it — there is no `raise`), so
the result is always `Except.ok`; the error type records that a `raise`
here would have been the only way to leave abnormally. -/
def plot_max_wec_results_guard (nturbs : ℕ) : Except PyErr MaxWecLocals :=
  if nturbs = 38 then
    Except.ok
      ⟨some "./image_data/opt_results/202003061434-max-wec-val/",
       some "snopt_wec_angle_max_wec_",
       some "_snopt_multistart_rundata_38turbs_nantucketWindRose_12dirs_BPA_all.txt"⟩
  else
    -- ValueError("please include results for %i turbines before rerunning
    -- the plotting script" % nturbs)  -- constructed, never raised
    let _ := "please include results for " ++ toString nturbs
      ++ " turbines before rerunning the plotting script"
    Except.ok ⟨none, none, none⟩

/-- The first statement after the guard,
`base_data = np.loadtxt(rdir + wadirp + "10" + "/" + ...)`: evaluating the
path expression reads the local `rdir` (then `wadirp`, `bfilename`); an
unassigned local fails there with `UnboundLocalError`. -/
def plot_max_wec_results_baseline_path (l : MaxWecLocals) :
    Except PyErr String :=
  match l.rdir with
  | none => Except.error (PyErr.unboundLocal "rdir")
  | some rdir =>
    match l.wadirp with
    | none => Except.error (PyErr.unboundLocal "wadirp")
    | some wadirp =>
      match l.bfilename with
      | none => Except.error (PyErr.unboundLocal "bfilename")
      | some bfilename =>
          Except.ok (rdir ++ wadirp ++ "10" ++ "/" ++ wadirp ++ "10" ++ bfilename)

/-! ### `plot_convergence_history` case dispatch (lines 4925–4971) — claim C2

Faithful translation of the `wakemodel`/`nturbs`/`ndirs` dispatch that runs
before any file is opened.  Outcomes:

* `envError` — `raise(EnvironmentError("Invalid Model and Case combination"))`;
* `unboundDate` — the BPA branch matched no turbine count, so the local
  `date` is unassigned and the very next statement
  `base_input_directory = ... % (date, nturbs, ndirs)` fails with
  `UnboundLocalError` (before any file is opened);
* `readsFiles aeptBound` — control reaches the file-reading code (the first
  file opened is the SNOPT convergence history); `aeptBound` records
  whether the theoretical-AEP local `aept` was assigned (for
  `(BPA, 38, d)` with `d ∉ {12, 36}` it was not, so the run fails only
  later, at the first use of `aept`, after files have been read). -/

/-- Outcome of the case-dispatch prologue of `plot_convergence_history`. -/
inductive ConvGuardResult where
  | envError : ConvGuardResult
  | unboundDate : ConvGuardResult
  | readsFiles : Bool → ConvGuardResult
  deriving DecidableEq, Repr

/-- Embedding of the dispatch on `(wakemodel, nturbs, ndirs)` at the top of
`plot_convergence_history`, statement for statement from the source. -/
def plot_convergence_history_guard (wakemodel : String) (nturbs ndirs : ℕ) :
    ConvGuardResult :=
  if wakemodel = "BPA" then
    if nturbs = 60 then ConvGuardResult.readsFiles true
    else if nturbs = 38 then
      if ndirs = 12 then ConvGuardResult.readsFiles true
      else if ndirs = 36 then ConvGuardResult.readsFiles true
      else ConvGuardResult.readsFiles false
    else if nturbs = 16 then ConvGuardResult.readsFiles true
    else ConvGuardResult.unboundDate
  else if wakemodel = "JENSEN" then
    if nturbs = 38 then
      if ndirs = 12 then ConvGuardResult.readsFiles true
      else ConvGuardResult.envError
    else ConvGuardResult.envError
  else ConvGuardResult.envError

/-- The five recognized case studies `(wakemodel, nturbs, ndirs)`. -/
def recognizedCases : List (String × ℕ × ℕ) :=
  [("BPA", 16, 20), ("BPA", 38, 12), ("BPA", 38, 36),
   ("BPA", 60, 72), ("JENSEN", 38, 12)]

/-! ### WEC-parameter-sweep aggregate arrays (lines 634–760 and siblings) — claim C1

All five sweep functions (`plot_max_wec_const_nstep_results`,
`plot_maxwec3_nstep_results`, `plot_wec_nstep_results`,
`plot_wec_step_results`, `plot_max_wec_results`) allocate five
`np.zeros`-initialized aggregate arrays — `max_aepi`, `min_aepi`,
`med_aepi`, `mean_aepi`, `std_aepi` — and, per swept value `j`, run

    try: data_set = np.loadtxt(data_file)
    except:
        max_aepi[i][j] = None
        min_aepi[i][j] = None
        med_aepi[i][j] = None
        std_aepi[i][j] = None
        continue

(assigning `None` into a float numpy array stores NaN; `mean_aepi[i][j]`
is *not* assigned and keeps its zero initialization).  On success the
converged rows (`ti_opt == 5`) give the wake-loss sample and all five
cells receive its max/min/mean/median/std.  A cell value is modelled as
`Option ℝ` with `none` for the NaN placeholder. -/

/-- One row of a SNOPT+WEC multistart result file as used inside the sweep
loop: column 1 (`ef`, continuation factor), column 3 (`ti_opt`, local-TI
stage) modelled as `ℚ` flags, and column 7 (`run end AEP`) as `ℝ`.  (The
body also slices columns 0, 8, 9, 10 but the aggregate cells depend only
on `ti_opt` and the end AEP.) -/
structure WecSweepRow where
  ef : ℚ
  tiOpt : ℚ
  endAep : ℝ

/-- One `(i, j)` cell of the five aggregate arrays; `none` is NaN. -/
structure SweepCell where
  maxv : Option ℝ
  minv : Option ℝ
  medv : Option ℝ
  meanv : Option ℝ
  stdv : Option ℝ

/-- Cell state after `np.zeros` initialization. -/
def initSweepCell : SweepCell := ⟨some 0, some 0, some 0, some 0, some 0⟩

/-- `np.max` of a list (junk value 0 on the empty list, where numpy would
raise; no theorem below evaluates the empty case). -/
noncomputable def listMax : List ℝ → ℝ
  | [] => 0
  | h :: t => t.foldl max h

/-- `np.min` of a list (same empty-list convention as `listMax`). -/
noncomputable def listMin : List ℝ → ℝ
  | [] => 0
  | h :: t => t.foldl min h

/-- `np.average` of a list. -/
noncomputable def listMean (l : List ℝ) : ℝ := l.sum / l.length

/-- `np.median` of a list: sort ascending, take the middle element for odd
length, the mean of the two middle elements for even length. -/
noncomputable def listMedian (l : List ℝ) : ℝ :=
  let s := l.insertionSort (· ≤ ·)
  if l.length % 2 = 1 then s.getD (l.length / 2) 0
  else (s.getD (l.length / 2 - 1) 0 + s.getD (l.length / 2) 0) / 2

/-- `np.std` of a list: square root of the mean squared deviation. -/
noncomputable def listStd (l : List ℝ) : ℝ :=
  Real.sqrt (listMean (l.map (fun x => (x - listMean l) ^ 2)))

/-- The wake-loss sample of one loaded sweep file: converged rows
(`ti_opt == 5`) mapped through `100 * (1 - run_end_aep / max_possible_aep)`
(lines 731–740 of `plot_max_wec_const_nstep_results`; the sibling sweeps
use the improvement formula instead, with an identical failure path). -/
noncomputable def wecSweepWakeLoss (maxAep : ℝ) (rows : List WecSweepRow) :
    List ℝ :=
  ((rows.filter (fun r => r.tiOpt = 5)).map
    (fun r => 100 * (1 - r.endAep / maxAep)))

/-- The update of one `(i, j)` cell of the aggregate arrays for one swept
value: `load = none` is the `except:` branch (file failed to load) which
NaN-fills `max`, `min`, `med`, `std` and leaves `mean` untouched;
`load = some rows` is the success path storing all five statistics. -/
noncomputable def wecSweepCellUpdate (maxAep : ℝ)
    (load : Option (List WecSweepRow)) (cell : SweepCell) : SweepCell :=
  match load with
  | none =>
      { cell with maxv := none, minv := none, medv := none, stdv := none }
  | some rows =>
      let wl := wecSweepWakeLoss maxAep rows
      ⟨some (listMax wl), some (listMin wl), some (listMedian wl),
       some (listMean wl), some (listStd wl)⟩

/-- The inner `j`-loop over one approach's swept values: each swept value's
load outcome updates its own zero-initialized cell, and a failed load
`continue`s to the next value (the bare `except:` catches everything, so
the loop itself never raises). -/
noncomputable def wecSweepResults (maxAep : ℝ)
    (loads : List (Option (List WecSweepRow))) : List SweepCell :=
  loads.map (fun l => wecSweepCellUpdate maxAep l initSweepCell)

/-! ### `plot_optimization_results` call totals and wake-loss samples
(lines 2540–2640) — claim C3

For plain SNOPT (`snw_`, BPA path):

    snw_run_end_aep = data_snopt_no_wec[snw_ti_opt == 5, 6]
    snw_tfcalls[i] = np.sum(snw_fcalls[snw_id == i])
    snw_tscalls[i] = np.sum(snw_scalls[snw_id == i])
    snw_ctfcalls = snw_tfcalls + snw_tscalls
    snw_run_wake_loss = 100.0 * (1.0 - (snw_run_end_aep[snw_ctfcalls>0] / tmax_aep))

For SNOPT+WEC-D (`swd_`) the analogous totals are computed from the WEC
file, but the wake-loss sample (line 2625) is masked by the *plain SNOPT*
totals:

    swd_run_wake_loss = 100.0*(1.0 - (swd_run_end_aep[snw_ctfcalls > 0] / tmax_aep))
-/

/-- One row of the plain-SNOPT multistart file (10 columns): run id
(column 0), local-TI stage (column 2), final AEP (column 6), function
calls (column 8), sensitivity calls (column 9). -/
structure SnoptRow where
  id : ℕ
  tiOpt : ℚ
  endAep : ℚ
  fcalls : ℚ
  scalls : ℚ
  deriving DecidableEq, Repr

/-- One row of the SNOPT+WEC multistart file (11 columns): run id
(column 0), continuation factor (column 1), local-TI stage (column 3),
final AEP (column 7), function calls (column 9), sensitivity calls
(column 10). -/
structure SnoptWecRow where
  id : ℕ
  ef : ℚ
  tiOpt : ℚ
  endAep : ℚ
  fcalls : ℚ
  scalls : ℚ
  deriving DecidableEq, Repr

/-- numpy boolean-mask selection `vals[mask]`: keeps, in order, the entries
whose index satisfies the mask. -/
def maskSelect (mask : ℕ → Bool) : List ℚ → List ℚ
  | [] => []
  | v :: vs =>
      (if mask 0 then [v] else []) ++ maskSelect (fun k => mask (k + 1)) vs

/-- `snw_run_end_aep`: final AEP of the converged (`ti_opt == 5`) rows. -/
def snw_run_end_aep (rows : List SnoptRow) : List ℚ :=
  (rows.filter (fun r => r.tiOpt = 5)).map (fun r => r.endAep)

/-- `snw_ctfcalls[i] = np.sum(snw_fcalls[snw_id == i]) +
np.sum(snw_scalls[snw_id == i])`: the per-run total evaluation count. -/
def snw_ctfcalls (rows : List SnoptRow) (i : ℕ) : ℚ :=
  ((rows.filter (fun r => r.id = i)).map (fun r => r.fcalls)).sum
    + ((rows.filter (fun r => r.id = i)).map (fun r => r.scalls)).sum

/-- `snw_run_wake_loss`: the wake-loss sample of the plain-SNOPT runs,
masked by plain SNOPT's own nonzero total-call counts. -/
def snw_run_wake_loss (rows : List SnoptRow) (tmax : ℚ) : List ℚ :=
  (maskSelect (fun i => decide (0 < snw_ctfcalls rows i))
      (snw_run_end_aep rows)).map (fun a => 100 * (1 - a / tmax))

/-- `swd_run_end_aep`: final AEP of the converged (`ti_opt == 5`) WEC
rows (BPA path). -/
def swd_run_end_aep (rows : List SnoptWecRow) : List ℚ :=
  (rows.filter (fun r => r.tiOpt = 5)).map (fun r => r.endAep)

/-- `swd_ctfcalls[i]`: the per-run total evaluation count of the WEC-D
runs (columns 9 and 10 summed over the rows sharing run id `i`). -/
def swd_ctfcalls (rows : List SnoptWecRow) (i : ℕ) : ℚ :=
  ((rows.filter (fun r => r.id = i)).map (fun r => r.fcalls)).sum
    + ((rows.filter (fun r => r.id = i)).map (fun r => r.scalls)).sum

/-- `swd_run_wake_loss` exactly as on source line 2625: the WEC-D sample is
masked by `snw_ctfcalls > 0` — the *plain SNOPT* totals — not by
`swd_ctfcalls`. -/
def swd_run_wake_loss (snwRows : List SnoptRow) (wecRows : List SnoptWecRow)
    (tmax : ℚ) : List ℚ :=
  (maskSelect (fun i => decide (0 < snw_ctfcalls snwRows i))
      (swd_run_end_aep wecRows)).map (fun a => 100 * (1 - a / tmax))

/-- Modelled from the claim's words (spec side of the refinement): the
wake-loss sample over the indices of `endAeps` whose `valid` predicate
holds — "computed only over its runs whose own summed call count is
nonzero". -/
def wakeLossSampleSpec (endAeps : List ℚ) (valid : ℕ → Bool) (tmax : ℚ) :
    List ℚ :=
  (((List.range endAeps.length).filter valid).map
      (fun i => endAeps.getD i 0)).map (fun a => 100 * (1 - a / tmax))

/-- Spec side of the refinement for the WEC-D algorithm, following the
claim's words: the WEC-D sample filtered by WEC-D's *own* nonzero summed
call counts. -/
def swd_run_wake_loss_ownSpec (wecRows : List SnoptWecRow) (tmax : ℚ) :
    List ℚ :=
  wakeLossSampleSpec (swd_run_end_aep wecRows)
    (fun i => decide (0 < swd_ctfcalls wecRows i)) tmax

/-! ### `get_statistics_38_turbs` relaxation call totals (lines 278–338) — claim C4

    sr_ef = data_snopt_relax[:, 1]
    sr_fcalls = data_snopt_relax[:, 9]
    sr_scalls = data_snopt_relax[:, 10]
    sr_tfcalls = sr_fcalls[sr_ef == 1]
    sr_tscalls = sr_fcalls[sr_ef == 1]      # reads column 9 again, not sr_scalls
    sr_med_fcalls = np.median(sr_tfcalls+sr_tscalls)   # likewise ave/std/min/max

so every printed relaxation call-count statistic is computed over
`sr_fcalls + sr_fcalls` (column 9 doubled) on the converged rows; the
sensitivity-call column 10 is loaded into `sr_scalls` but never used in
these statistics. -/

/-- One row of the SNOPT-relaxation multistart file (11 columns): run id
(column 0), continuation factor (column 1), function calls (column 9),
sensitivity calls (column 10). -/
structure RelaxRow where
  id : ℕ
  ef : ℚ
  fcalls : ℚ
  scalls : ℚ
  deriving DecidableEq, Repr

/-- `sr_tfcalls = sr_fcalls[sr_ef == 1]`. -/
def sr_tfcalls (rows : List RelaxRow) : List ℚ :=
  (rows.filter (fun r => r.ef = 1)).map (fun r => r.fcalls)

/-- `sr_tscalls = sr_fcalls[sr_ef == 1]` — the source reads the
function-call column here as well. -/
def sr_tscalls (rows : List RelaxRow) : List ℚ :=
  (rows.filter (fun r => r.ef = 1)).map (fun r => r.fcalls)

/-- `sr_tfcalls + sr_tscalls`: the element-wise sample over which the five
printed relaxation call-count statistics (median, mean, std, min, max) are
computed. -/
def sr_call_totals (rows : List RelaxRow) : List ℚ :=
  List.zipWith (· + ·) (sr_tfcalls rows) (sr_tscalls rows)

/-- Modelled from the claim's words (spec side of the refinement): function
calls plus sensitivity calls (columns 9 and 10) on converged rows. -/
def sr_call_totalsSpec (rows : List RelaxRow) : List ℚ :=
  (rows.filter (fun r => r.ef = 1)).map (fun r => r.fcalls + r.scalls)

/-- `np.median` over `ℚ` (computable; same convention as `listMedian`). -/
def ratMedian (l : List ℚ) : ℚ :=
  let s := l.insertionSort (· ≤ ·)
  if l.length % 2 = 1 then s.getD (l.length / 2) 0
  else (s.getD (l.length / 2 - 1) 0 + s.getD (l.length / 2) 0) / 2

/-! ### `parse_alpso_files` (lines 5990–5995) — claim C6

    def parse_alpso_files(filename):
        with open(filename) as f:
            fcalls = re.findall('(?<=EVALUATIONS: ).\d+', f.read(), re.MULTILINE)
        with open(filename) as f:
            obj = re.findall('(?<=F = -).*', f.read(), re.MULTILINE)
        return obj, fcalls

`re.findall` scans left to right for non-overlapping matches.  The first
pattern matches, after the zero-width look-behind `EVALUATIONS: `, one
arbitrary non-newline character followed by one or more digits; the second
matches everything to the end of the line after the look-behind `F = -`
(`re.MULTILINE` only affects `^`/`$`, so `.` still excludes newlines).
Neither anchor can overlap itself or a previous match's token for these
alphabets, so a single left-to-right suffix scan reproduces `findall`;
fuel (the input length) makes the scan structurally recursive. -/

/-- `pat` matches at the start of `s`. -/
def beginsWith : List Char → List Char → Bool
  | [], _ => true
  | _ :: _, [] => false
  | p :: ps, c :: cs => p == c && beginsWith ps cs

/-- `pat` matches at the start of some suffix of `s` (substring test). -/
def occursIn (pat : List Char) : List Char → Bool
  | [] => beginsWith pat []
  | c :: cs => beginsWith pat (c :: cs) || occursIn pat cs

/-- The look-behind anchor of the function-call pattern. -/
def evalAnchor : List Char := "EVALUATIONS: ".toList

/-- The look-behind anchor of the objective pattern. -/
def objAnchor : List Char := "F = -".toList

/-- Left-to-right scan for `(?<=EVALUATIONS: ).\d+`: at each anchored
position, match one non-newline character and then a maximal nonempty
digit run; on success resume after the token, otherwise advance one
character. -/
def scanEvalsAux : ℕ → List Char → List (List Char)
  | 0, _ => []
  | _, [] => []
  | fuel + 1, c :: rest =>
    if beginsWith evalAnchor (c :: rest) then
      match (c :: rest).drop evalAnchor.length with
      | [] => scanEvalsAux fuel rest
      | d :: ds =>
        if d = '\n' then scanEvalsAux fuel rest
        else
          let digs := ds.takeWhile (fun ch => ch.isDigit)
          if digs.isEmpty then scanEvalsAux fuel rest
          else (d :: digs) :: scanEvalsAux fuel (ds.drop digs.length)
    else scanEvalsAux fuel rest

/-- All matches of `(?<=EVALUATIONS: ).\d+` in `s`. -/
def scanEvals (s : List Char) : List (List Char) := scanEvalsAux s.length s

/-- Left-to-right scan for `(?<=F = -).*`: at each anchored position the
match is the (possibly empty) remainder of the line; `findall` resumes at
the match end, advancing one character after an empty match. -/
def scanObjsAux : ℕ → List Char → List (List Char)
  | 0, _ => []
  | _, [] => []
  | fuel + 1, c :: rest =>
    if beginsWith objAnchor (c :: rest) then
      let after := (c :: rest).drop objAnchor.length
      let tok := after.takeWhile (fun ch => ch ≠ '\n')
      if tok.isEmpty then
        match after with
        | [] => [[]]
        | _ :: more => [] :: scanObjsAux fuel more
      else tok :: scanObjsAux fuel (after.drop tok.length)
    else scanObjsAux fuel rest

/-- All matches of `(?<=F = -).*` in `s`. -/
def scanObjs (s : List Char) : List (List Char) := scanObjsAux s.length s

/-- `parse_alpso_files` on the file content: `return obj, fcalls`. -/
def parse_alpso_files (content : List Char) :
    List (List Char) × List (List Char) :=
  (scanObjs content, scanEvals content)

/-! ### `plot_wec_methods` wake geometry (lines 4357–4390, 4464–4487) — claim C5

The inner closed-form functions with the caller's constants
`I = 0.1`, `ky = kz = 0.3871*I + 0.003678`, `d = 80.0`, `ct = 0.8`,
`gamma = 0`, `beta_star = 0.154`, `alpha_star = 2.32`. -/

namespace WecMethods

/-- `x0_func(d, gamma, ct, alpha_star, beta_star, I)` — end of near wake. -/
noncomputable def x0_func (d gamma ct alpha_star beta_star I : ℝ) : ℝ :=
  (d * Real.cos gamma * (1 + Real.sqrt (1 - ct))) /
    (Real.sqrt 2 * (alpha_star * I + beta_star * (1 - Real.sqrt (1 - ct))))

/-- `xd_func(x0, d, ky, kz, gamma, ct)` — discontinuity point. -/
noncomputable def xd_func (x0 d ky kz gamma ct : ℝ) : ℝ :=
  x0 + d * (ky + kz * Real.cos gamma
      - Real.sqrt ((ky + kz * Real.cos gamma) ^ 2
          - 4 * ky * kz * (ct - 1) * Real.cos gamma)) /
    (2 * ky * kz * Real.sqrt 8)

/-- One point of `spread_func(x, x0, xd, d, ky, kz, gamma)`: the
`(sigmay, sigmaz)` pair computed for a single entry `x` (the source loops
this over the `x` array). -/
noncomputable def spread_func_at (x x0 xd d ky kz gamma : ℝ) : ℝ × ℝ :=
  let sigmay0 := d * Real.cos gamma / Real.sqrt 8
  let sigmaz0 := d * Real.cos gamma / Real.sqrt 8
  let sigmayd := ky * (xd - x0) + d * Real.cos gamma / Real.sqrt 8
  let sigmazd := kz * (xd - x0) + d / Real.sqrt 8
  if x0 < x then
    (ky * (x - x0) + d * Real.cos gamma / Real.sqrt 8,
     kz * (x - x0) + d / Real.sqrt 8)
  else
    ((x / x0) * (sigmay0 - sigmayd) + sigmayd,
     (x / x0) * (sigmaz0 - sigmazd) + sigmazd)

/-- `ky = kz = 0.3871 * I + 0.003678` at `I = 0.1`. -/
noncomputable def kyVal : ℝ := 0.3871 * 0.1 + 0.003678

/-- `x0` as computed by the caller with its default constants. -/
noncomputable def x0Val : ℝ := x0_func 80 0 0.8 2.32 0.154 0.1

/-- `xd` as computed by the caller with its default constants. -/
noncomputable def xdVal : ℝ := xd_func x0Val 80 kyVal kyVal 0 0.8

end WecMethods

/-! ### sunflower point generator of `plot_100_rotor_points`
(lines 3573–3602) — claim C7

    def radius(k, n, b):
        if (k + 1) > n - b: r = 1.
        else: r = np.sqrt((k + 1.) - 1. / 2.) / np.sqrt(n - (b + 1.) / 2.)
    b = np.round(alpha * np.sqrt(n))
    phi = (np.sqrt(5.) + 1.) / 2.
    theta = 2. * np.pi * (k + 1) / phi ** 2
    x[k] = r * np.cos(theta); y[k] = r * np.sin(theta)

For `n = 100`, `alpha = 1.0`: `b = round(sqrt(100)) = 10`.  Indices and
counts are naturals (for `b ≤ n` the truncated natural subtraction in the
branch condition agrees with the float comparison of the source). -/

/-- The golden ratio `phi = (sqrt(5) + 1) / 2`. -/
noncomputable def goldenPhi : ℝ := (Real.sqrt 5 + 1) / 2

/-- `radius(k, n, b)` of the sunflower generator. -/
noncomputable def sunflowerRadius (n b k : ℕ) : ℝ :=
  if n - b < k + 1 then 1
  else Real.sqrt ((k + 1 : ℝ) - 1 / 2) / Real.sqrt ((n : ℝ) - ((b : ℝ) + 1) / 2)

/-- `theta = 2π(k+1)/phi²` of the sunflower generator. -/
noncomputable def sunflowerTheta (k : ℕ) : ℝ :=
  2 * Real.pi * (k + 1) / goldenPhi ^ 2

/-- generated x coordinate `r * cos(theta)`. -/
noncomputable def sunflowerX (n b k : ℕ) : ℝ :=
  sunflowerRadius n b k * Real.cos (sunflowerTheta k)

/-- generated y coordinate `r * sin(theta)`. -/
noncomputable def sunflowerY (n b k : ℕ) : ℝ :=
  sunflowerRadius n b k * Real.sin (sunflowerTheta k)

/-! ## Theorems -/

/-- C9: every call to `plot_windrose` requires at least two ticks — the
minor-tick spacing `(ticks[1]-ticks[0])/(minor_ticks+1)` is evaluated
unconditionally before any bars are drawn, even when `minor_ticks = 0`, so
a single-element `ticks` list fails with an index error regardless of the
other arguments, while any two-or-more-element list reaches the bar call
with that spacing value. -/
theorem C9_windrose_needs_two_ticks :
    (∀ (direction values ticks : List ℚ) (minor_ticks : ℕ),
        ticks.length = 1 →
        plot_windrose_run direction values ticks minor_ticks
          = Except.error PyErr.indexError) ∧
    (∀ (direction values : List ℚ) (t0 t1 : ℚ) (rest : List ℚ)
        (minor_ticks : ℕ),
        plot_windrose_run direction values (t0 :: t1 :: rest) minor_ticks
          = Except.ok ⟨direction.length, (t1 - t0) / (minor_ticks + 1)⟩) := by
  constructor
  · intro direction values ticks minor_ticks h
    match ticks, h with
    | [t], _ => rfl
  · intro direction values t0 t1 rest minor_ticks
    rfl

/-- Witness for C9 at a concrete single-tick call with `minor_ticks = 0`. -/
theorem C9_windrose_needs_two_ticks_witness :
    ([(5 : ℚ)].length = 1) ∧
    plot_windrose_run [0, 90] [1, 2] [(5 : ℚ)] 0
      = Except.error PyErr.indexError :=
  ⟨rfl, C9_windrose_needs_two_ticks.1 [0, 90] [1, 2] [5] 0 rfl⟩

/-- C10: with `save_figs` true, `plot_alpso_tests` rebinds its `filename`
parameter and writes the four case-study charts to the hard-coded paths
`./images/alpso_test_{nturbs}turbs_{ndirs}dirs.pdf`; the written path set
is identical for any two values of the `filename` argument, and the local
`filename` ends up rebound to the last case's path. -/
theorem C10_alpso_tests_filename_ignored (f g : String) :
    (plot_alpso_tests_writes f true).2 =
      ["./images/alpso_test_16turbs_20dirs.pdf",
       "./images/alpso_test_38turbs_12dirs.pdf",
       "./images/alpso_test_38turbs_36dirs.pdf",
       "./images/alpso_test_60turbs_72dirs.pdf"] ∧
    plot_alpso_tests_writes f true = plot_alpso_tests_writes g true ∧
    (plot_alpso_tests_writes f true).1 = alpsoTestPath 60 72 := by
  refine ⟨rfl, rfl, rfl⟩

/-- C8: for every turbine count other than 38, the guard of
`plot_max_wec_results` constructs its value-error object without raising —
the guard step completes normally with all sweep-configuration locals
unassigned — and the first use of those locals (the baseline-data path of
the very next statement) is where the failure occurs, as an unbound-local
error on `rdir`. -/
theorem C8_max_wec_results_guard_silent (nturbs : ℕ) (h : nturbs ≠ 38) :
    plot_max_wec_results_guard nturbs = Except.ok ⟨none, none, none⟩ ∧
    plot_max_wec_results_baseline_path ⟨none, none, none⟩
      = Except.error (PyErr.unboundLocal "rdir") := by
  refine ⟨?_, rfl⟩
  simp [plot_max_wec_results_guard, h]

/-- Witness for C8 at `nturbs = 16`. -/
theorem C8_max_wec_results_guard_silent_witness :
    (16 ≠ 38) ∧
    plot_max_wec_results_guard 16 = Except.ok ⟨none, none, none⟩ :=
  ⟨by decide, (C8_max_wec_results_guard_silent 16 (by decide)).1⟩

/-- C2 counterexample: `(BPA, 60, 5)` is outside the five recognized case
studies, yet `plot_convergence_history`'s dispatch does not raise the
`EnvironmentError` — the BPA/60-turbine branch never checks `ndirs`, so
the call proceeds to the file-reading code. -/
theorem C2_counterexample :
    plot_convergence_history_guard "BPA" 60 5 = ConvGuardResult.readsFiles true ∧
    plot_convergence_history_guard "BPA" 60 5 ≠ ConvGuardResult.envError ∧
    ("BPA", 60, 5) ∉ recognizedCases := by
  refine ⟨rfl, by decide, by decide⟩

/-- C2 amended: the dispatch raises the explicit
`EnvironmentError "Invalid Model and Case combination"` exactly for wake
models other than BPA and JENSEN and for JENSEN combinations other than
`(38, 12)`.  BPA combinations are never rejected this way: an unrecognized
BPA turbine count falls through with the local `date` unbound (failing
before any file is read, but with an unbound-local error instead), and a
recognized BPA turbine count proceeds to read input files for *every*
`ndirs` value. -/
theorem C2_convergence_history_guard_amended (wakemodel : String)
    (nturbs ndirs : ℕ) :
    (plot_convergence_history_guard wakemodel nturbs ndirs
        = ConvGuardResult.envError
      ↔ (wakemodel ≠ "BPA" ∧ wakemodel ≠ "JENSEN")
        ∨ (wakemodel = "JENSEN" ∧ ¬(nturbs = 38 ∧ ndirs = 12))) ∧
    (wakemodel = "BPA" → nturbs ≠ 16 → nturbs ≠ 38 → nturbs ≠ 60 →
      plot_convergence_history_guard wakemodel nturbs ndirs
        = ConvGuardResult.unboundDate) ∧
    (wakemodel = "BPA" → nturbs = 16 ∨ nturbs = 38 ∨ nturbs = 60 →
      ∃ b, plot_convergence_history_guard wakemodel nturbs ndirs
        = ConvGuardResult.readsFiles b) := by
  unfold plot_convergence_history_guard
  refine ⟨?_, ?_, ?_⟩
  · split_ifs <;> simp_all
  · intro hm h16 h38 h60
    subst hm
    rw [if_pos rfl, if_neg h60, if_neg h38, if_neg h16]
  · rintro hm (h | h | h) <;>
      (subst hm; subst h;
       simp only [if_true, if_pos rfl];
       first
        | exact ⟨_, rfl⟩
        | (split_ifs <;> exact ⟨_, rfl⟩))

/-- Witness for C2: a non-BPA/JENSEN model is rejected with the
configuration error, while an unrecognized BPA turbine count instead falls
through to the unbound-local failure. -/
theorem C2_convergence_history_guard_amended_witness :
    plot_convergence_history_guard "FLORIS" 38 12 = ConvGuardResult.envError ∧
    plot_convergence_history_guard "BPA" 9 12 = ConvGuardResult.unboundDate :=
  ⟨(C2_convergence_history_guard_amended "FLORIS" 38 12).1.mpr
      (Or.inl ⟨by decide, by decide⟩),
   (C2_convergence_history_guard_amended "BPA" 9 12).2.1 rfl
      (by decide) (by decide) (by decide)⟩

/-- C1 counterexample: in the sweep functions' `except:` branch the mean
aggregate array is *not* assigned the not-a-number placeholder — after a
failed load the cell's mean keeps its zero initialization while max, min,
median and std become NaN, refuting the claim that all of max, min, mean
and std receive the placeholder. -/
theorem C1_counterexample :
    (wecSweepCellUpdate 100 none initSweepCell).meanv = some 0 ∧
    (wecSweepCellUpdate 100 none initSweepCell).meanv ≠ none ∧
    (wecSweepCellUpdate 100 none initSweepCell).maxv = none ∧
    (wecSweepCellUpdate 100 none initSweepCell).minv = none ∧
    (wecSweepCellUpdate 100 none initSweepCell).medv = none ∧
    (wecSweepCellUpdate 100 none initSweepCell).stdv = none := by
  refine ⟨rfl, by simp [wecSweepCellUpdate, initSweepCell], rfl, rfl, rfl, rfl⟩

/-- C1 amended: for every swept parameter value whose result file fails to
load, the sweep functions do not raise: they record the not-a-number
placeholder for that cell in the max, min, *median* and std aggregate
arrays — the mean array's cell keeps its zero initialization — and
continue to the next swept value, computing real values for every value
whose file loads successfully. -/
theorem C1_sweep_failure_amended (maxAep : ℝ)
    (loads : List (Option (List WecSweepRow))) (j : ℕ) :
    (loads[j]? = some none →
      (wecSweepResults maxAep loads)[j]?
        = some ⟨none, none, none, some 0, none⟩) ∧
    (∀ rows, loads[j]? = some (some rows) →
      (wecSweepResults maxAep loads)[j]?
        = some ⟨some (listMax (wecSweepWakeLoss maxAep rows)),
                some (listMin (wecSweepWakeLoss maxAep rows)),
                some (listMedian (wecSweepWakeLoss maxAep rows)),
                some (listMean (wecSweepWakeLoss maxAep rows)),
                some (listStd (wecSweepWakeLoss maxAep rows))⟩) ∧
    (wecSweepResults maxAep loads).length = loads.length := by
  refine ⟨?_, ?_, by simp [wecSweepResults]⟩
  · intro h
    simp [wecSweepResults, List.getElem?_map, h, wecSweepCellUpdate,
      initSweepCell]
  · intro rows h
    simp [wecSweepResults, List.getElem?_map, h, wecSweepCellUpdate,
      initSweepCell]

/-- Witness for C1 amended: a two-value sweep where the second file fails
to load — the failed cell shows zero (not NaN) in the mean slot and NaN
elsewhere, and the successful cell holds real statistics. -/
theorem C1_sweep_failure_amended_witness :
    (wecSweepResults 100 [some [⟨1, 5, 100⟩], none])[1]?
      = some ⟨none, none, none, some 0, none⟩ ∧
    (wecSweepResults 100 [some [⟨1, 5, 100⟩], none])[0]?
      = some ⟨some 0, some 0, some 0, some 0, some 0⟩ := by
  have h1 := (C1_sweep_failure_amended 100 [some [⟨1, 5, 100⟩], none] 1).1 rfl
  have h0 := (C1_sweep_failure_amended 100 [some [⟨1, 5, 100⟩], none] 0).2.1
      [⟨1, 5, 100⟩] rfl
  refine ⟨h1, ?_⟩
  rw [h0]
  norm_num [wecSweepWakeLoss, listMax, listMin, listMedian, listMean, listStd,
    List.insertionSort, List.orderedInsert]

/-- C4 counterexample: a single converged relaxation row with 3 function
calls and 7 sensitivity calls — the printed call-count sample is `[6]`
(column 9 doubled), not the claimed `[10]` (columns 9 + 10), so the median
statistic is 6 rather than 10. -/
theorem C4_counterexample :
    sr_call_totals [⟨0, 1, 3, 7⟩] = [6] ∧
    sr_call_totalsSpec [⟨0, 1, 3, 7⟩] = [10] ∧
    sr_call_totals [⟨0, 1, 3, 7⟩] ≠ sr_call_totalsSpec [⟨0, 1, 3, 7⟩] ∧
    ratMedian (sr_call_totals [⟨0, 1, 3, 7⟩]) = 6 ∧
    ratMedian (sr_call_totalsSpec [⟨0, 1, 3, 7⟩]) = 10 := by
  norm_num [sr_call_totals, sr_call_totalsSpec, sr_tfcalls, sr_tscalls,
    ratMedian, List.insertionSort, List.orderedInsert]

/-- C4 amended: `get_statistics_38_turbs` computes the relaxation method's
printed call-count statistics over *twice the function-call column*
(column 9 added to itself) restricted to converged rows
(continuation-factor column = 1); the sensitivity-call column 10 is loaded
but unused there, and the computed sample agrees with the claimed
columns-9-plus-10 sample exactly when every converged row has equal
function-call and sensitivity-call counts. -/
theorem C4_relax_call_totals_amended (rows : List RelaxRow) :
    sr_call_totals rows
      = (rows.filter (fun r => r.ef = 1)).map (fun r => 2 * r.fcalls) ∧
    (sr_call_totals rows = sr_call_totalsSpec rows ↔
      ∀ r ∈ rows.filter (fun r => r.ef = 1), r.fcalls = r.scalls) := by
  have hzip : ∀ l : List ℚ, List.zipWith (· + ·) l l = l.map (fun x => x + x) := by
    intro l
    induction l with
    | nil => rfl
    | cons x xs ih => simp [List.zipWith, ih]
  have hbase : sr_call_totals rows
      = (rows.filter (fun r => r.ef = 1)).map (fun r => r.fcalls + r.fcalls) := by
    simp [sr_call_totals, sr_tfcalls, sr_tscalls, hzip, List.map_map,
      Function.comp]
  constructor
  · rw [hbase]
    refine List.map_congr_left ?_
    intro r _
    ring
  · rw [hbase, sr_call_totalsSpec, List.map_eq_map_iff]
    constructor
    · intro h r hr
      have := h r hr
      linarith
    · intro h r hr
      have := h r hr
      linarith

/-- Witness for C4 amended at the single-row counterexample input. -/
theorem C4_relax_call_totals_amended_witness :
    sr_call_totals [⟨0, 1, 3, 7⟩]
      = (([⟨0, 1, 3, 7⟩] : List RelaxRow).filter
          (fun r => r.ef = 1)).map (fun r => 2 * r.fcalls) :=
  (C4_relax_call_totals_amended [⟨0, 1, 3, 7⟩]).1

/-- numpy boolean-mask selection equals index-based selection: the entries
kept by `maskSelect` are exactly the values at the indices accepted by the
mask, in order. -/
theorem maskSelect_eq (mask : ℕ → Bool) (vals : List ℚ) :
    maskSelect mask vals
      = ((List.range vals.length).filter mask).map (fun i => vals.getD i 0) := by
  induction vals generalizing mask with
  | nil => simp [maskSelect]
  | cons v vs ih =>
    rw [maskSelect, List.length_cons, List.range_succ_eq_map,
      List.filter_cons]
    by_cases h : mask 0
    · simp only [h, if_pos, List.map_cons, List.getD_cons_zero,
        List.filter_map, List.map_map, ih (fun k => mask (k + 1))]
      simp [Function.comp_def, Nat.succ_eq_add_one]
    · simp only [h, List.filter_map, List.map_map,
        ih (fun k => mask (k + 1))]
      simp [Function.comp_def, Nat.succ_eq_add_one, h]

/-- C3 counterexample: plain-SNOPT rows give run 0 two evaluations and run
1 zero; WEC-D rows give run 0 *zero* evaluations and run 1 four.  The code
keeps WEC-D run 0 (zero own evaluations, wake loss 50) and drops WEC-D run
1, because the mask comes from the plain-SNOPT totals; the claim's
own-mask sample would instead be `[40]` (run 1 only). -/
theorem C3_counterexample :
    swd_ctfcalls [⟨0, 1, 5, 50, 0, 0⟩, ⟨1, 1, 5, 60, 2, 2⟩] 0 = 0 ∧
    swd_run_wake_loss [⟨0, 5, 100, 1, 1⟩, ⟨1, 5, 100, 0, 0⟩]
        [⟨0, 1, 5, 50, 0, 0⟩, ⟨1, 1, 5, 60, 2, 2⟩] 100 = [50] ∧
    swd_run_wake_loss_ownSpec [⟨0, 1, 5, 50, 0, 0⟩, ⟨1, 1, 5, 60, 2, 2⟩] 100
      = [40] ∧
    swd_run_wake_loss [⟨0, 5, 100, 1, 1⟩, ⟨1, 5, 100, 0, 0⟩]
        [⟨0, 1, 5, 50, 0, 0⟩, ⟨1, 1, 5, 60, 2, 2⟩] 100
      ≠ swd_run_wake_loss_ownSpec [⟨0, 1, 5, 50, 0, 0⟩, ⟨1, 1, 5, 60, 2, 2⟩]
          100 := by
  norm_num [swd_ctfcalls, swd_run_wake_loss, swd_run_wake_loss_ownSpec,
    snw_ctfcalls, swd_run_end_aep, wakeLossSampleSpec, maskSelect,
    List.range_succ]

/-- C3 amended: for each algorithm the per-run total evaluation count is
indeed the sum of function and sensitivity calls over all rows sharing the
run identifier, and plain SNOPT's wake-loss sample is filtered by its own
nonzero totals; but SNOPT+WEC-D's wake-loss sample is selected by *plain
SNOPT's* nonzero-call mask rather than its own, so a WEC-D run with zero
recorded evaluations stays in the sample whenever the same-numbered plain
SNOPT run has nonzero calls. -/
theorem C3_optimization_results_amended (snwRows : List SnoptRow)
    (wecRows : List SnoptWecRow) (tmax : ℚ) (i : ℕ) :
    snw_ctfcalls snwRows i
      = ((snwRows.filter (fun r => r.id = i)).map
          (fun r => r.fcalls + r.scalls)).sum ∧
    swd_ctfcalls wecRows i
      = ((wecRows.filter (fun r => r.id = i)).map
          (fun r => r.fcalls + r.scalls)).sum ∧
    snw_run_wake_loss snwRows tmax
      = wakeLossSampleSpec (snw_run_end_aep snwRows)
          (fun k => decide (0 < snw_ctfcalls snwRows k)) tmax ∧
    swd_run_wake_loss snwRows wecRows tmax
      = wakeLossSampleSpec (swd_run_end_aep wecRows)
          (fun k => decide (0 < snw_ctfcalls snwRows k)) tmax := by
  refine ⟨?_, ?_, ?_, ?_⟩
  · rw [snw_ctfcalls]
    induction snwRows with
    | nil => simp
    | cons r rs ih =>
      rw [List.filter_cons]
      by_cases h : r.id = i
      · rw [if_pos (by simpa using h)]
        simp only [List.map_cons, List.sum_cons]
        rw [← ih]
        ring
      · rw [if_neg (by simpa using h)]
        exact ih
  · rw [swd_ctfcalls]
    induction wecRows with
    | nil => simp
    | cons r rs ih =>
      rw [List.filter_cons]
      by_cases h : r.id = i
      · rw [if_pos (by simpa using h)]
        simp only [List.map_cons, List.sum_cons]
        rw [← ih]
        ring
      · rw [if_neg (by simpa using h)]
        exact ih
  · rw [snw_run_wake_loss, maskSelect_eq, wakeLossSampleSpec]
  · rw [swd_run_wake_loss, maskSelect_eq, wakeLossSampleSpec]

/-- Witness for C3 amended at the counterexample input. -/
theorem C3_optimization_results_amended_witness :
    snw_ctfcalls [⟨0, 5, 100, 1, 1⟩, ⟨1, 5, 100, 0, 0⟩] 0
      = ((([⟨0, 5, 100, 1, 1⟩, ⟨1, 5, 100, 0, 0⟩] : List SnoptRow).filter
          (fun r => r.id = 0)).map (fun r => r.fcalls + r.scalls)).sum :=
  (C3_optimization_results_amended [⟨0, 5, 100, 1, 1⟩, ⟨1, 5, 100, 0, 0⟩]
    [] 100 0).1

/-- If the `EVALUATIONS: ` anchor occurs nowhere in the input, the
function-call scan finds nothing. -/
theorem scanEvalsAux_eq_nil (fuel : ℕ) :
    ∀ s : List Char, occursIn evalAnchor s = false →
      scanEvalsAux fuel s = [] := by
  induction fuel with
  | zero => intro s _; cases s <;> rfl
  | succ n ih =>
    intro s h
    match s with
    | [] => rfl
    | c :: rest =>
      rw [occursIn] at h
      rcases Bool.or_eq_false_iff.mp h with ⟨h1, h2⟩
      rw [scanEvalsAux, if_neg (by simp [h1])]
      exact ih rest h2

/-- If the `F = -` anchor occurs nowhere in the input, the objective scan
finds nothing. -/
theorem scanObjsAux_eq_nil (fuel : ℕ) :
    ∀ s : List Char, occursIn objAnchor s = false →
      scanObjsAux fuel s = [] := by
  induction fuel with
  | zero => intro s _; cases s <;> rfl
  | succ n ih =>
    intro s h
    match s with
    | [] => rfl
    | c :: rest =>
      rw [occursIn] at h
      rcases Bool.or_eq_false_iff.mp h with ⟨h1, h2⟩
      rw [scanObjsAux, if_neg (by simp [h1])]
      exact ih rest h2

/-- C6 counterexample: a log whose only line is `EVALUATIONS: 5` — the
integer 5 appears right after the anchor, but the pattern
`(?<=EVALUATIONS: ).\d+` needs one character *plus* at least one digit, so
single-digit counts produce no match and the function returns two empty
lists instead of capturing `"5"`. -/
theorem C6_counterexample :
    parse_alpso_files ("EVALUATIONS: 5\n".toList) = ([], []) ∧
    (parse_alpso_files ("EVALUATIONS: 5\n".toList)).2 ≠ ["5".toList] ∧
    occursIn evalAnchor ("EVALUATIONS: 5\n".toList) = true := by
  refine ⟨by decide, by decide, by decide⟩

/-- C6 amended: `parse_alpso_files` returns the objective tokens and the
function-call tokens, where a function-call token is one non-newline
character followed by at least one digit after `EVALUATIONS: ` (so
integers of two or more digits are captured in full while a single-digit
count yields no match), and an objective token is the remainder of the
line after `F = -` (the numeric token with its sign stripped whenever the
value ends the line); a file without either anchor yields two empty lists
rather than an error. -/
theorem C6_parse_alpso_amended :
    parse_alpso_files ("EVALUATIONS: 150\nF = -12345.6789\n".toList)
      = (["12345.6789".toList], ["150".toList]) ∧
    parse_alpso_files ("EVALUATIONS: 5\nEVALUATIONS: 42\n".toList)
      = ([], ["42".toList]) ∧
    (∀ s : List Char, occursIn evalAnchor s = false →
      occursIn objAnchor s = false → parse_alpso_files s = ([], [])) := by
  refine ⟨by decide, by decide, ?_⟩
  intro s h1 h2
  rw [parse_alpso_files, scanObjs, scanEvals,
    scanObjsAux_eq_nil _ s h2, scanEvalsAux_eq_nil _ s h1]

/-- Witness for C6 amended: a log with no matches of either pattern. -/
theorem C6_parse_alpso_amended_witness :
    parse_alpso_files ("just text\n".toList) = ([], []) :=
  C6_parse_alpso_amended.2.2 ("just text\n".toList) (by decide) (by decide)

namespace WecMethods

/-- `sqrt(1 - ct) < 1` at `ct = 0.8`. -/
theorem sqrt02_lt_one : Real.sqrt (1 - 0.8) < 1 := by
  have h : Real.sqrt (1 - 0.8) < Real.sqrt 1 :=
    Real.sqrt_lt_sqrt (by norm_num) (by norm_num)
  simpa using h

/-- The near-wake length at the caller's constants is positive. -/
theorem x0Val_pos : 0 < x0Val := by
  have hs0 : 0 ≤ Real.sqrt (1 - 0.8) := Real.sqrt_nonneg _
  have hs1 : Real.sqrt (1 - 0.8) < 1 := sqrt02_lt_one
  have h2 : 0 < Real.sqrt 2 := Real.sqrt_pos.mpr (by norm_num)
  unfold x0Val x0_func
  rw [Real.cos_zero]
  apply div_pos
  · nlinarith
  · apply mul_pos h2
    nlinarith

/-- At the caller's constants the discontinuity point lies *below* the
near-wake length: with `ct < 1` the radicand exceeds `(ky + kz)²`, so the
root term dominates and the added fraction is negative. -/
theorem xdVal_lt_x0Val : xdVal < x0Val := by
  have hky : (0 : ℝ) < kyVal := by unfold kyVal; norm_num
  have h8 : 0 < Real.sqrt 8 := Real.sqrt_pos.mpr (by norm_num)
  unfold xdVal xd_func
  rw [Real.cos_zero, mul_one]
  have hK : (0 : ℝ) ≤ kyVal + kyVal := by linarith
  have harg : (kyVal + kyVal) ^ 2
      < (kyVal + kyVal) ^ 2 - 4 * kyVal * kyVal * (0.8 - 1) * 1 := by
    nlinarith
  have hroot : kyVal + kyVal
      < Real.sqrt ((kyVal + kyVal) ^ 2
          - 4 * kyVal * kyVal * (0.8 - 1) * 1) := by
    calc kyVal + kyVal = Real.sqrt ((kyVal + kyVal) ^ 2) :=
          (Real.sqrt_sq hK).symm
    _ < _ := Real.sqrt_lt_sqrt (by positivity) harg
  have hden : 0 < 2 * kyVal * kyVal * Real.sqrt 8 := by positivity
  have hnum : 80 * (kyVal + kyVal
      - Real.sqrt ((kyVal + kyVal) ^ 2
          - 4 * kyVal * kyVal * (0.8 - 1) * 1)) < 0 := by
    nlinarith
  have := div_neg_of_neg_of_pos hnum hden
  linarith

end WecMethods

/-- C5 counterexample: at the default physical inputs of
`plot_wec_methods` (`I = 0.1`, `d = 80`, `ct = 0.8`, `gamma = 0`,
`alpha_star = 2.32`, `beta_star = 0.154`, `ky = kz = 0.3871*0.1+0.003678`)
the claimed inequality `xd ≥ x0` is false: `xd_func` returns a value
strictly below `x0_func`'s. -/
theorem C5_counterexample : ¬ (WecMethods.x0Val ≤ WecMethods.xdVal) :=
  not_le.mpr WecMethods.xdVal_lt_x0Val

/-- C5 amended: at the default physical inputs, `x0_func` returns a
positive `x0`, `xd_func` returns an `xd` with `xd < x0` (not `xd ≥ x0`),
and for every `x > x0` the far-wake branch of `spread_func` gives
`sigmay = sigmaz` (the formulas coincide at zero yaw since `ky = kz`). -/
theorem C5_wec_methods_amended :
    0 < WecMethods.x0Val ∧
    WecMethods.xdVal < WecMethods.x0Val ∧
    ∀ x : ℝ, WecMethods.x0Val < x →
      (WecMethods.spread_func_at x WecMethods.x0Val WecMethods.xdVal 80
          WecMethods.kyVal WecMethods.kyVal 0).1
        = (WecMethods.spread_func_at x WecMethods.x0Val WecMethods.xdVal 80
            WecMethods.kyVal WecMethods.kyVal 0).2 := by
  refine ⟨WecMethods.x0Val_pos, WecMethods.xdVal_lt_x0Val, ?_⟩
  intro x h
  unfold WecMethods.spread_func_at
  rw [if_pos h]
  simp [Real.cos_zero]

/-- Witness for C5 amended: the far-wake equality one unit beyond `x0`. -/
theorem C5_wec_methods_amended_witness :
    (WecMethods.spread_func_at (WecMethods.x0Val + 1) WecMethods.x0Val
        WecMethods.xdVal 80 WecMethods.kyVal WecMethods.kyVal 0).1
      = (WecMethods.spread_func_at (WecMethods.x0Val + 1) WecMethods.x0Val
          WecMethods.xdVal 80 WecMethods.kyVal WecMethods.kyVal 0).2 :=
  C5_wec_methods_amended.2.2 (WecMethods.x0Val + 1)
    (lt_add_one WecMethods.x0Val)

/-- `phi² = (3 + sqrt 5) / 2` for the golden ratio. -/
theorem goldenPhi_sq : goldenPhi ^ 2 = (3 + Real.sqrt 5) / 2 := by
  unfold goldenPhi
  rw [div_pow, add_sq, Real.sq_sqrt (by norm_num : (0:ℝ) ≤ 5)]
  field_simp
  ring

/-- The golden ratio is positive. -/
theorem goldenPhi_pos : 0 < goldenPhi := by
  have h5 : 0 ≤ Real.sqrt 5 := Real.sqrt_nonneg _
  unfold goldenPhi
  positivity

/-- Sunflower radii are nonnegative. -/
theorem sunflowerRadius_nonneg (n b k : ℕ) : 0 ≤ sunflowerRadius n b k := by
  unfold sunflowerRadius
  split_ifs with h
  · norm_num
  · positivity

/-- For `n = 100`, `b = 10` every sunflower radius is at most 1. -/
theorem sunflowerRadius_le_one (k : ℕ) : sunflowerRadius 100 10 k ≤ 1 := by
  unfold sunflowerRadius
  split_ifs with h
  · exact le_refl 1
  · push_neg at h
    have hk89 : (k : ℝ) ≤ 89 := by
      have hh : k ≤ 89 := by omega
      exact_mod_cast hh
    have hden : (((100:ℕ):ℝ) - (((10:ℕ):ℝ) + 1) / 2) = 189 / 2 := by
      push_cast; ring
    rw [hden]
    have hpos : (0:ℝ) < Real.sqrt (189 / 2) := Real.sqrt_pos.mpr (by norm_num)
    rw [div_le_one hpos]
    apply Real.sqrt_le_sqrt
    linarith

/-- For `n = 100`, `b = 10` a sunflower radius equals 1 exactly on the
last ten indices. -/
theorem sunflowerRadius_eq_one_iff (k : ℕ) :
    sunflowerRadius 100 10 k = 1 ↔ 90 ≤ k := by
  unfold sunflowerRadius
  split_ifs with h
  · constructor
    · intro _; omega
    · intro _; rfl
  · push_neg at h
    constructor
    · intro heq
      exfalso
      have hden : (((100:ℕ):ℝ) - (((10:ℕ):ℝ) + 1) / 2) = 189 / 2 := by
        push_cast; ring
      rw [hden] at heq
      have hpos : (0:ℝ) < Real.sqrt (189 / 2) := Real.sqrt_pos.mpr (by norm_num)
      have hk89 : (k : ℝ) ≤ 89 := by
        have hh : k ≤ 89 := by omega
        exact_mod_cast hh
      have hlt : Real.sqrt ((k + 1 : ℝ) - 1 / 2) < Real.sqrt (189 / 2) := by
        apply Real.sqrt_lt_sqrt
        · have : (0:ℝ) ≤ (k:ℝ) := Nat.cast_nonneg k
          linarith
        · linarith
      have hq : Real.sqrt ((k + 1 : ℝ) - 1 / 2) / Real.sqrt (189 / 2) < 1 :=
        (div_lt_one hpos).mpr hlt
      rw [heq] at hq
      exact lt_irrefl 1 hq
    · intro h90
      exfalso
      omega

/-- The squared distance from the origin of a sunflower point is the
squared radius. -/
theorem sunflower_xy_sq (n b k : ℕ) :
    sunflowerX n b k ^ 2 + sunflowerY n b k ^ 2
      = sunflowerRadius n b k ^ 2 := by
  unfold sunflowerX sunflowerY
  have h := Real.sin_sq_add_cos_sq (sunflowerTheta k)
  linear_combination (sunflowerRadius n b k ^ 2) * h

/-- Two distinct indices give sunflower angles that never differ by an
integer multiple of `2π` (irrationality of `sqrt 5`). -/
theorem sunflowerTheta_distinct (j k : ℕ) (hjk : j ≠ k) (m : ℤ) :
    sunflowerTheta j - sunflowerTheta k ≠ 2 * Real.pi * m := by
  intro hEq
  have hphi2ne : goldenPhi ^ 2 ≠ 0 := by
    have := goldenPhi_pos
    positivity
  have hθ : sunflowerTheta j - sunflowerTheta k
      = 2 * Real.pi * ((j : ℝ) - (k : ℝ)) / goldenPhi ^ 2 := by
    unfold sunflowerTheta
    field_simp
    ring
  rw [hθ] at hEq
  have hEq' : 2 * Real.pi * ((j : ℝ) - (k : ℝ))
      = 2 * Real.pi * (((m : ℝ)) * goldenPhi ^ 2) := by
    have h := congrArg (fun t : ℝ => t * goldenPhi ^ 2) hEq
    simp only at h
    rw [div_mul_cancel₀ _ hphi2ne] at h
    rw [h]
    ring
  have h2pi : (2 * Real.pi) ≠ 0 := by
    have := Real.pi_pos
    positivity
  have h1 : (j : ℝ) - (k : ℝ) = (m : ℝ) * goldenPhi ^ 2 :=
    mul_left_cancel₀ h2pi hEq'
  rw [goldenPhi_sq] at h1
  have h2 : (m : ℝ) * Real.sqrt 5
      = 2 * (j : ℝ) - 2 * (k : ℝ) - 3 * (m : ℝ) := by
    linear_combination (-2 : ℝ) * h1
  by_cases hm : m = 0
  · rw [hm] at h2
    push_cast at h2
    have : (j : ℝ) = (k : ℝ) := by linarith
    exact hjk (by exact_mod_cast this)
  · have h5irr : Irrational (Real.sqrt 5) := by
      rw [show ((5:ℝ)) = ((5:ℕ):ℝ) by norm_num]
      exact (by norm_num : Nat.Prime 5).irrational_sqrt
    have hcast : ((2 * (j : ℤ) - 2 * (k : ℤ) - 3 * m : ℤ) : ℝ)
        = 2 * (j : ℝ) - 2 * (k : ℝ) - 3 * (m : ℝ) := by
      push_cast
      ring
    exact (h5irr.int_mul hm).ne_int (2 * (j : ℤ) - 2 * (k : ℤ) - 3 * m)
      (by rw [h2, ← hcast])

/-- C7: for `n = 100` with the default boundary fraction (`b = round(sqrt
100) = 10`), every generated point satisfies `x² + y² ≤ 1 + ε` for any
`ε ≥ 0`; the radius equals 1 exactly on the last ten indices, so exactly
`round(sqrt 100) = 10` points are boundary points; and for all indices up
to 1000 (indeed all indices) the generated angles `2π(k+1)/φ²` are
pairwise distinct modulo `2π`. -/
theorem C7_sunflower_points :
    (∀ eps : ℝ, 0 ≤ eps → ∀ k, k < 100 →
      sunflowerX 100 10 k ^ 2 + sunflowerY 100 10 k ^ 2 ≤ 1 + eps) ∧
    (∀ k, k < 100 → (sunflowerRadius 100 10 k = 1 ↔ 90 ≤ k)) ∧
    ((List.range 100).filter (fun k => decide (90 ≤ k))).length = 10 ∧
    Real.sqrt 100 = 10 ∧
    (∀ j k : ℕ, j < 1000 → k < 1000 → j ≠ k → ∀ m : ℤ,
      sunflowerTheta j - sunflowerTheta k ≠ 2 * Real.pi * m) := by
  refine ⟨?_, ?_, by decide, ?_, ?_⟩
  · intro eps heps k _
    rw [sunflower_xy_sq]
    have h1 := sunflowerRadius_le_one k
    have h0 := sunflowerRadius_nonneg 100 10 k
    nlinarith
  · intro k _
    exact sunflowerRadius_eq_one_iff k
  · rw [show (100:ℝ) = 10 ^ 2 by norm_num, Real.sqrt_sq (by norm_num : (0:ℝ) ≤ 10)]
  · intro j k _ _ hjk m
    exact sunflowerTheta_distinct j k hjk m

/-- Witness for C7 at concrete indices: the disk bound at `k = 5` with
`ε = 0`, the boundary radius at `k = 95`, and angle distinctness for
`j = 1`, `k = 2`, `m = 3`. -/
theorem C7_sunflower_points_witness :
    sunflowerX 100 10 5 ^ 2 + sunflowerY 100 10 5 ^ 2 ≤ 1 + 0 ∧
    sunflowerRadius 100 10 95 = 1 ∧
    sunflowerTheta 1 - sunflowerTheta 2 ≠ 2 * Real.pi * ((3 : ℤ) : ℝ) :=
  ⟨C7_sunflower_points.1 0 le_rfl 5 (by decide),
   (C7_sunflower_points.2.1 95 (by decide)).mpr (by decide),
   C7_sunflower_points.2.2.2.2 1 2 (by decide) (by decide) (by decide) 3⟩

/-- Witness for C10 at two concrete filename arguments. -/
theorem C10_alpso_tests_filename_ignored_witness :
    plot_alpso_tests_writes "a.pdf" true = plot_alpso_tests_writes "b.pdf" true :=
  (C10_alpso_tests_filename_ignored "a.pdf" "b.pdf").2.1
